import Mathlib

/-! Verification model of the Odometry Session Controller implemented in
`src/src/OdometryROS.cpp` (class `OdometryROS` of the rtabmap_ros package).

Rigid transforms are abstracted to their group structure (an integer
translation vector): the control flow verified here never inspects a pose
beyond identity tests, equality, composition and inversion, so the
rotational part (which composes the same way) is irrelevant here.  The
external collaborators enter as oracles: the TF lookup service
(`OdometryROS::getTransform`) is a function from (source frame, target
frame, stamp) to an optional pose, where `none` models the null transform
returned on timeout or lookup failure; the motion estimator
(`odometry_->process`) is a stateful black box whose per-call outcome is
carried by the observation record.  Publication side effects are recorded
as an event trace. -/

/-- Rigid transform (rtabmap `Transform`), abstracted to an integer
translation vector; composition, inversion and identity mirror the group
operations the controller uses.  The null transform is represented
separately as `none : Option Pose` (`Transform::isNull()`). -/
structure Pose where
  x : Int
  y : Int
  z : Int
  deriving DecidableEq, Repr

/-- The identity transform (`Transform::getIdentity`); the session origin. -/
def Pose.identity : Pose := ⟨0, 0, 0⟩

/-- Transform composition, `Transform::operator*`. -/
def Pose.comp (a b : Pose) : Pose := ⟨a.x + b.x, a.y + b.y, a.z + b.z⟩

/-- Transform inversion, `Transform::inverse()`. -/
def Pose.inverse (a : Pose) : Pose := ⟨-a.x, -a.y, -a.z⟩

/-- The external transform lookup (`OdometryROS::getTransform`, lines
300-327): given a source frame, a target frame and a stamp it either
resolves a rigid transform or yields the null transform (`none`).  The
bounded-wait policy (`wait_for_transform_duration`) is internal to the
external TF service and is folded into the oracle. -/
def TfOracle : Type := String → String → Nat → Option Pose

/-- Configuration of the controller, fixed at `onInit` (member variables of
`OdometryROS` read by `processData`).  `odomSub` and `odomInfoSub` model the
subscriber-interest predicates `odomPub_.getNumSubscribers()` and
`odomInfoPub_.getNumSubscribers()`.  `resetCountdown` models the int member
`resetCountdown_`; only non-negative values are reachable from the
parameter machinery (default "0"). -/
structure Config where
  frameId : String
  odomFrameId : String
  groundTruthFrameId : String
  guessFrameId : String
  publishTf : Bool
  publishNullWhenLost : Bool
  guessFromTf : Bool
  resetCountdown : Nat
  odomSub : Bool
  odomInfoSub : Bool
  deriving DecidableEq, Repr

/-- Mutable session state: the estimator-owned current pose
(`odometry_->getPose()`, identity at construction), the estimator's
previous-observation stamp (`odometry_->previousStamp()`, 0 when unset or
after a reset), the failure countdown `resetCurrentCount_`, and the
operator pause flag `paused_`. -/
structure SessionState where
  currentPose : Pose
  previousStamp : Nat
  resetCurrentCount : Nat
  paused : Bool
  deriving DecidableEq, Repr

/-- State after the `OdometryROS` constructor (lines 59-78):
`resetCurrentCount_(0)`, `paused_(false)`, estimator pose identity. -/
def initialState : SessionState :=
  { currentPose := Pose.identity, previousStamp := 0,
    resetCurrentCount := 0, paused := false }

/-- One incoming sensor observation: its header stamp and the outcome the
black-box motion estimator produces for it (`odometry_->process` returns a
null transform on tracking failure). -/
structure Obs where
  stamp : Nat
  est : Option Pose
  deriving DecidableEq, Repr

/-- Observable effects of one `processData` call, in program order: the
estimator invocation with the guess it was handed, the TF broadcast
(line 394), the odometry message (line 442), the explicit null "lost"
odometry message (line 550), the error log of an unavailable guess
(line 369), the countdown warning (line 555, logging the pre-decrement
count), a re-anchoring reset (lines 565/571, recording the new pose and
whether it came from TF), and the odometry-info message (line 583).
The point-cloud publications (lines 446-525) are subscriber-gated outputs
that never touch the session state and are omitted from the trace. -/
inductive Event where
  | estimate (guess : Option Pose)
  | tfPublished (p : Pose)
  | odomPublished (p : Pose)
  | lostSentinelPublished
  | guessErrorLogged
  | resetWarnLogged (remaining : Nat)
  | reanchored (p : Pose) (fromTf : Bool)
  | odomInfoPublished
  deriving DecidableEq, Repr

/-- Bootstrap block of `processData` (lines 331-346): if the estimator pose
is still identity and a ground-truth frame is configured, resolve the
reference-to-sensor transform at the observation stamp; on failure return
early (`none` = abort, the call mutates nothing), on success reset the
estimator to that pose (`odometry_->reset(initialPose)`, which also clears
the estimator's previous stamp). -/
def bootstrapStep (cfg : Config) (tf : TfOracle) (st : SessionState)
    (stamp : Nat) : Option SessionState :=
  if st.currentPose = Pose.identity ∧ cfg.groundTruthFrameId ≠ "" then
    match tf cfg.groundTruthFrameId cfg.frameId stamp with
    | none => none
    | some initialPose =>
        some { st with currentPose := initialPose, previousStamp := 0 }
  else
    some st

/-- Guess block of `processData` (lines 348-372): when `guess_from_tf` is
enabled, look up the guess-frame pose relative to the odometry frame at the
previous stamp and at the current stamp; if both resolve the guess is
`previousPose.inverse() * pose`, otherwise the call aborts (`none`) after
logging an error.  When disabled the guess stays null (`some none`). -/
def guessStep (cfg : Config) (tf : TfOracle) (st : SessionState)
    (stamp : Nat) : Option (Option Pose) :=
  if cfg.guessFromTf then
    match tf cfg.odomFrameId cfg.guessFrameId st.previousStamp,
          tf cfg.odomFrameId cfg.guessFrameId stamp with
    | some previousPose, some pose =>
        some (some (previousPose.inverse.comp pose))
    | _, _ => none
  else
    some none

/-- Estimation and post-processing of `processData` (lines 374-602).  The
estimator call `odometry_->process(dataCpy, guess, &info)` records the
observation stamp as the estimator's previous stamp and, on success, makes
the returned pose the estimator's own pose.  On success (lines 379-526) the
countdown is reloaded and the pose outputs are published.  On failure, if
`publish_null_when_lost` is set a null sentinel odometry message is
published unconditionally (lines 527-551); then the reset-countdown block
(lines 553-575) runs: while the countdown is positive it is decremented,
and when it reaches 0 the session is re-anchored, preferring the
odom-to-sensor transform from TF and otherwise resetting the estimator to
its own current pose (`odometry_->reset` clears the previous stamp; the
countdown is NOT reloaded here).  The odometry-info message (lines 577-584)
is published in both branches when subscribed. -/
def estimateStep (cfg : Config) (tf : TfOracle) (st : SessionState)
    (stamp : Nat) (guess : Option Pose) (est : Option Pose) :
    SessionState × List Event :=
  let info : List Event :=
    if cfg.odomInfoSub then [Event.odomInfoPublished] else []
  match est with
  | some pose =>
      ({ st with currentPose := pose, previousStamp := stamp,
                 resetCurrentCount := cfg.resetCountdown },
       Event.estimate guess ::
         ((if cfg.publishTf then [Event.tfPublished pose] else []) ++
          (if cfg.odomSub then [Event.odomPublished pose] else []) ++ info))
  | none =>
      let stf : SessionState := { st with previousStamp := stamp }
      let base : List Event :=
        Event.estimate guess ::
          (if cfg.publishNullWhenLost then [Event.lostSentinelPublished]
           else [])
      if stf.resetCurrentCount > 0 then
        if stf.resetCurrentCount - 1 = 0 then
          match tf cfg.odomFrameId cfg.frameId stamp with
          | none =>
              ({ stf with resetCurrentCount := 0, previousStamp := 0 },
               base ++ [Event.resetWarnLogged stf.resetCurrentCount,
                        Event.reanchored stf.currentPose false] ++ info)
          | some tfPose =>
              ({ stf with currentPose := tfPose, resetCurrentCount := 0,
                          previousStamp := 0 },
               base ++ [Event.resetWarnLogged stf.resetCurrentCount,
                        Event.reanchored tfPose true] ++ info)
        else
          ({ stf with resetCurrentCount := stf.resetCurrentCount - 1 },
           base ++ [Event.resetWarnLogged stf.resetCurrentCount] ++ info)
      else
        (stf, base ++ info)

/-- Body of `processData` after the bootstrap block: guess resolution
followed by estimation and post-processing.  On a guess abort the state
reached so far is kept and only the error is logged (the early `return` at
line 370 comes after any bootstrap reset). -/
def processCore (cfg : Config) (tf : TfOracle) (st : SessionState)
    (obs : Obs) : SessionState × List Event :=
  match guessStep cfg tf st obs.stamp with
  | none => (st, [Event.guessErrorLogged])
  | some guess => estimateStep cfg tf st obs.stamp guess obs.est

/-- `OdometryROS::processData` (lines 329-602): bootstrap, then guess,
estimation and output composition.  A bootstrap abort (line 338) returns
before any mutation or output. -/
def processData (cfg : Config) (tf : TfOracle) (st : SessionState)
    (obs : Obs) : SessionState × List Event :=
  match bootstrapStep cfg tf st obs.stamp with
  | none => (st, [])
  | some st1 => processCore cfg tf st1 obs

/-- Modelled from the spec: the public per-observation operation
`processObservation`.  In the source, `processData` itself carries no pause
check; the pause gate lives in the image callbacks of the `OdometryROS`
subclasses, which are not part of this file set, and the spec assigns the
gate to the surrounding collaborator while requiring the operation as a
whole to be inert when paused ("while `paused == true`,
`processObservation` must be a no-op that does not call the Motion
Estimator and does not mutate `SessionState`"). -/
def processObservation (cfg : Config) (tf : TfOracle) (st : SessionState)
    (obs : Obs) : SessionState × List Event :=
  if st.paused then (st, []) else processData cfg tf st obs

/-- `OdometryROS::pause` (lines 621-633): sets the pause flag; a redundant
call merely logs a warning. -/
def pause (st : SessionState) : SessionState := { st with paused := true }

/-- `OdometryROS::resume` (lines 635-647): clears the pause flag; a
redundant call merely logs a warning. -/
def resume (st : SessionState) : SessionState := { st with paused := false }

/-- A run of the controller over a list of observations, threading the
session state and concatenating the event traces. -/
def runObs (cfg : Config) (tf : TfOracle) (st : SessionState) :
    List Obs → SessionState × List Event
  | [] => (st, [])
  | obs :: rest =>
      let r1 := processObservation cfg tf st obs
      let r2 := runObs cfg tf r1.1 rest
      (r2.1, r1.2 ++ r2.2)

/-- Whether an event is a failure-recovery re-anchoring reset. -/
def Event.isReanchor : Event → Bool
  | .reanchored _ _ => true
  | _ => false

/-- Number of failure-recovery re-anchorings in a trace. -/
def reanchorCount (evs : List Event) : Nat := evs.countP Event.isReanchor

/-- Conflict fixup of `onInit` (lines 122-128): when `publish_tf` and
`guess_from_tf` are both requested while the guess frame equals the sensor
frame, `guess_from_tf` is disabled with a warning. -/
def fixGuessFromTf (cfg : Config) : Config :=
  if cfg.publishTf = true ∧ cfg.guessFromTf = true ∧
      cfg.guessFrameId = cfg.frameId then
    { cfg with guessFromTf := false }
  else
    cfg

/-- The `tf_prefix` block of `onInit` (lines 136-150), which runs after
the conflict check: when the prefix is non-empty, each non-empty one of
`frameId_`, `odomFrameId_` and `groundTruthFrameId_` is replaced by
`tfPrefix + "/" + value`.  `guessFrameId_` is never prefixed. -/
def applyTfPrefix (tfPrefix : String) (cfg : Config) : Config :=
  if tfPrefix = "" then cfg
  else
    { cfg with
        frameId :=
          if cfg.frameId = "" then cfg.frameId
          else tfPrefix ++ "/" ++ cfg.frameId,
        odomFrameId :=
          if cfg.odomFrameId = "" then cfg.odomFrameId
          else tfPrefix ++ "/" ++ cfg.odomFrameId,
        groundTruthFrameId :=
          if cfg.groundTruthFrameId = "" then cfg.groundTruthFrameId
          else tfPrefix ++ "/" ++ cfg.groundTruthFrameId }

/-- The frame-related configuration produced by `onInit` in source order:
the guess/publish-tf conflict check of lines 122-128 first, then the
`tf_prefix` application of lines 136-150. -/
def initFrames (tfPrefix : String) (cfg : Config) : Config :=
  applyTfPrefix tfPrefix (fixGuessFromTf cfg)

/-! Estimator parameter loading of `onInit` (lines 170-243).  The parameter
table `parameters_` is an association list from parameter keys to values;
the source stores values as strings and the min-inliers floor check reads
them through `atoi`, so values are represented here by the integer content
that check observes.  The configuration file (`Parameters::readINI`) and
the per-key parameter server lookups (`pnh.getParam`) are oracles from keys
to optional values; the command-line-style overrides
(`Parameters::parseArguments`) are a list of key-value pairs applied in
order.  The later backward-compatibility migration block (lines 245-274)
and the `Odom/ResetCountdown` extraction (lines 276-277) are outside the
precedence pipeline modelled here. -/

/-- Lookup in the parameter table (`parameters_.find`): the value of the
first entry carrying the key. -/
def getParamValue : List (String × Int) → String → Option Int
  | [], _ => none
  | kv :: rest, k => if kv.1 = k then some kv.2 else getParamValue rest k

/-- The key `Parameters::kVisMinInliers()` guarded by the hard floor. -/
def kVisMinInliers : String := "Vis/MinInliers"

/-- The hard-floor check of lines 220-224: a min-inliers value below 8 is
replaced by 8.  All other keys pass through unchanged. -/
def clampMinInliers (k : String) (v : Int) : Int :=
  if k = kVisMinInliers ∧ v < 8 then 8 else v

/-- File pass (lines 171-192): every key already in the table takes the
config-file value when the file provides one. -/
def applyFile (file : String → Option Int) (ps : List (String × Int)) :
    List (String × Int) :=
  ps.map (fun kv => (kv.1, (file kv.1).getD kv.2))

/-- Per-key pass (lines 193-225): every key takes the parameter-server
value when set, and the min-inliers floor check runs on the resulting value
of every entry inside the same loop. -/
def applyPerKey (perKey : String → Option Int) (ps : List (String × Int)) :
    List (String × Int) :=
  ps.map (fun kv => (kv.1, clampMinInliers kv.1 ((perKey kv.1).getD kv.2)))

/-- One command-line override (lines 235-243): only keys already present in
the table are updated. -/
def setArg (ps : List (String × Int)) (kv : String × Int) :
    List (String × Int) :=
  ps.map (fun e => (e.1, if e.1 = kv.1 then kv.2 else e.2))

/-- Command-line pass (lines 227-243): the parsed argument pairs are
applied in order, later pairs overwriting earlier ones. -/
def applyArgs (args : List (String × Int)) (ps : List (String × Int)) :
    List (String × Int) :=
  args.foldl setArg ps

/-- The full parameter pipeline of lines 170-243: built-in defaults, then
config-file values, then per-key overrides (with the min-inliers floor
check), then command-line-style overrides. -/
def loadParameters (defaults : List (String × Int))
    (file perKey : String → Option Int) (args : List (String × Int)) :
    List (String × Int) :=
  applyArgs args (applyPerKey perKey (applyFile file defaults))

/-- The value the command-line pass leaves for a key: the last argument
pair carrying that key, if any. -/
def lastArgValue : List (String × Int) → String → Option Int
  | [], _ => none
  | kv :: rest, k =>
      match lastArgValue rest k with
      | some v => some v
      | none => if kv.1 = k then some kv.2 else none

/-! Concrete fixtures used by counterexamples and witnesses. -/

/-- A plain configuration: no ground-truth frame, no TF guess, countdown
limit 1, lost-sentinel publication on, no optional subscribers. -/
def cfgPlain : Config :=
  { frameId := "base_link", odomFrameId := "odom", groundTruthFrameId := "",
    guessFrameId := "base_link", publishTf := false,
    publishNullWhenLost := true, guessFromTf := false, resetCountdown := 1,
    odomSub := false, odomInfoSub := false }

/-- A configuration with the TF guess enabled (distinct guess frame, so the
`onInit` conflict fixup would keep it enabled). -/
def cfgGuess : Config :=
  { cfgPlain with guessFromTf := true, guessFrameId := "guess" }

/-- A configuration with a ground-truth reference frame configured. -/
def cfgGt : Config := { cfgPlain with groundTruthFrameId := "world" }

/-- A TF oracle that never resolves any transform. -/
def tfNone : TfOracle := fun _ _ _ => none

/-- A TF oracle resolving every lookup to a fixed pose. -/
def tfConst : TfOracle := fun _ _ _ => some ⟨1, 2, 3⟩

/-- A TF oracle resolving distinct poses at stamps 0 and 7. -/
def tfTwo : TfOracle := fun _ _ s =>
  if s = 0 then some ⟨1, 0, 0⟩ else if s = 7 then some ⟨4, 4, 4⟩ else none

/-- A session state away from the origin with one countdown step left. -/
def stOne : SessionState :=
  { currentPose := ⟨5, 0, 0⟩, previousStamp := 0, resetCurrentCount := 1,
    paused := false }

/-- A session state away from the origin with the countdown at zero. -/
def stZero : SessionState :=
  { currentPose := ⟨5, 0, 0⟩, previousStamp := 0, resetCurrentCount := 0,
    paused := false }

/-- The plain configuration with the recovery policy disabled
(`Odom/ResetCountdown` left at its default "0"). -/
def cfgZero : Config := { cfgPlain with resetCountdown := 0 }

/-- A paused session state. -/
def stPaused : SessionState := { stOne with paused := true }

/-- An observation on which the estimator fails. -/
def obsFail : Obs := { stamp := 7, est := none }

/-- An observation on which the estimator succeeds with pose (8, 8, 8). -/
def obsOk : Obs := { stamp := 7, est := some ⟨8, 8, 8⟩ }

/-- A raw configuration that passes the conflict check of lines 122-128
only because the `tf_prefix` of the later block has not been applied yet:
the guess frame already carries the prefixed sensor-frame name. -/
def cfgPrefixTrap : Config :=
  { frameId := "base_link", odomFrameId := "odom", groundTruthFrameId := "",
    guessFrameId := "p/base_link", publishTf := true,
    publishNullWhenLost := true, guessFromTf := true, resetCountdown := 0,
    odomSub := false, odomInfoSub := false }

/-- A raw configuration with the guess/publish-tf conflict present at the
time of the check. -/
def cfgConflict : Config := { cfgPrefixTrap with guessFrameId := "base_link" }

/-- A small default parameter table. -/
def defaultsW : List (String × Int) := [("Odom/Strategy", 1), (kVisMinInliers, 20)]

/-- A config-file oracle providing a value for one ordinary key. -/
def fileW : String → Option Int := fun k => if k = "Odom/Strategy" then some 2 else none

/-- A parameter-server oracle providing no per-key overrides. -/
def perKeyW : String → Option Int := fun _ => none

/-! Helper lemmas about traces and single steps. -/

@[simp] lemma isReanchor_estimate (g : Option Pose) :
    (Event.estimate g).isReanchor = false := rfl

@[simp] lemma isReanchor_tfPublished (p : Pose) :
    (Event.tfPublished p).isReanchor = false := rfl

@[simp] lemma isReanchor_odomPublished (p : Pose) :
    (Event.odomPublished p).isReanchor = false := rfl

@[simp] lemma isReanchor_lostSentinelPublished :
    Event.lostSentinelPublished.isReanchor = false := rfl

@[simp] lemma isReanchor_guessErrorLogged :
    Event.guessErrorLogged.isReanchor = false := rfl

@[simp] lemma isReanchor_resetWarnLogged (n : Nat) :
    (Event.resetWarnLogged n).isReanchor = false := rfl

@[simp] lemma isReanchor_reanchored (p : Pose) (b : Bool) :
    (Event.reanchored p b).isReanchor = true := rfl

@[simp] lemma isReanchor_odomInfoPublished :
    Event.odomInfoPublished.isReanchor = false := rfl

@[simp] lemma reanchorCount_nil : reanchorCount [] = 0 := rfl

@[simp] lemma reanchorCount_cons (e : Event) (evs : List Event) :
    reanchorCount (e :: evs) =
      reanchorCount evs + (if e.isReanchor then 1 else 0) := by
  simp [reanchorCount, List.countP_cons]

@[simp] lemma reanchorCount_append (l1 l2 : List Event) :
    reanchorCount (l1 ++ l2) = reanchorCount l1 + reanchorCount l2 := by
  simp [reanchorCount, List.countP_append]

@[simp] lemma reanchorCount_ite (c : Prop) [Decidable c]
    (l1 l2 : List Event) :
    reanchorCount (if c then l1 else l2) =
      if c then reanchorCount l1 else reanchorCount l2 := by
  split <;> rfl

lemma runObs_nil (cfg : Config) (tf : TfOracle) (st : SessionState) :
    runObs cfg tf st [] = (st, []) := rfl

lemma runObs_cons (cfg : Config) (tf : TfOracle) (st : SessionState)
    (obs : Obs) (rest : List Obs) :
    runObs cfg tf st (obs :: rest) =
      ((runObs cfg tf (processObservation cfg tf st obs).1 rest).1,
       (processObservation cfg tf st obs).2 ++
         (runObs cfg tf (processObservation cfg tf st obs).1 rest).2) := rfl

lemma runObs_append (cfg : Config) (tf : TfOracle) (l1 l2 : List Obs) :
    ∀ st : SessionState,
      runObs cfg tf st (l1 ++ l2) =
        ((runObs cfg tf (runObs cfg tf st l1).1 l2).1,
         (runObs cfg tf st l1).2 ++
           (runObs cfg tf (runObs cfg tf st l1).1 l2).2) := by
  induction l1 with
  | nil => intro st; simp [runObs_nil]
  | cons obs rest ih =>
      intro st
      simp [runObs_cons, ih, List.append_assoc]

lemma processObservation_paused (cfg : Config) (tf : TfOracle)
    (st : SessionState) (obs : Obs) (h : st.paused = true) :
    processObservation cfg tf st obs = (st, []) := by
  simp [processObservation, h]

lemma run_paused (cfg : Config) (tf : TfOracle) :
    ∀ (l : List Obs) (st : SessionState), st.paused = true →
      runObs cfg tf st l = (st, []) := by
  intro l
  induction l with
  | nil => intro st _; rfl
  | cons obs rest ih =>
      intro st h
      rw [runObs_cons, processObservation_paused cfg tf st obs h, ih st h]
      rfl

lemma bootstrapStep_skip (cfg : Config) (tf : TfOracle) (st : SessionState)
    (stamp : Nat)
    (h : st.currentPose ≠ Pose.identity ∨ cfg.groundTruthFrameId = "") :
    bootstrapStep cfg tf st stamp = some st := by
  unfold bootstrapStep
  rw [if_neg]
  rcases h with h | h
  · exact fun hc => h hc.1
  · exact fun hc => hc.2 h

lemma guessStep_off (cfg : Config) (tf : TfOracle) (st : SessionState)
    (stamp : Nat) (h : cfg.guessFromTf = false) :
    guessStep cfg tf st stamp = some none := by
  simp [guessStep, h]

lemma processObservation_run (cfg : Config) (tf : TfOracle)
    (st : SessionState) (obs : Obs) (g : Option Pose)
    (hp : st.paused = false)
    (hb : st.currentPose ≠ Pose.identity ∨ cfg.groundTruthFrameId = "")
    (hg : guessStep cfg tf st obs.stamp = some g) :
    processObservation cfg tf st obs =
      estimateStep cfg tf st obs.stamp g obs.est := by
  simp only [processObservation, processData, processCore, hp,
    bootstrapStep_skip cfg tf st obs.stamp hb, hg, Bool.false_eq_true,
    if_false]

lemma estimateStep_success (cfg : Config) (tf : TfOracle) (st : SessionState)
    (stamp : Nat) (guess : Option Pose) (p : Pose) :
    estimateStep cfg tf st stamp guess (some p) =
      ({ st with currentPose := p, previousStamp := stamp,
                 resetCurrentCount := cfg.resetCountdown },
       Event.estimate guess ::
         ((if cfg.publishTf then [Event.tfPublished p] else []) ++
          (if cfg.odomSub then [Event.odomPublished p] else []) ++
          (if cfg.odomInfoSub then [Event.odomInfoPublished] else []))) :=
  rfl

lemma estimateStep_fail_zero (cfg : Config) (tf : TfOracle)
    (st : SessionState) (stamp : Nat) (guess : Option Pose)
    (h : st.resetCurrentCount = 0) :
    estimateStep cfg tf st stamp guess none =
      ({ st with previousStamp := stamp },
       Event.estimate guess ::
         ((if cfg.publishNullWhenLost then [Event.lostSentinelPublished]
           else []) ++
          (if cfg.odomInfoSub then [Event.odomInfoPublished] else []))) := by
  simp [estimateStep, h]

lemma estimateStep_fail_decr (cfg : Config) (tf : TfOracle)
    (st : SessionState) (stamp : Nat) (guess : Option Pose) (n : Nat)
    (h : st.resetCurrentCount = n + 2) :
    estimateStep cfg tf st stamp guess none =
      ({ st with previousStamp := stamp, resetCurrentCount := n + 1 },
       Event.estimate guess ::
         ((if cfg.publishNullWhenLost then [Event.lostSentinelPublished]
           else []) ++
          ([Event.resetWarnLogged (n + 2)] ++
           (if cfg.odomInfoSub then [Event.odomInfoPublished] else [])))) := by
  simp [estimateStep, h]

lemma estimateStep_fail_trip (cfg : Config) (tf : TfOracle)
    (st : SessionState) (stamp : Nat) (guess : Option Pose)
    (h : st.resetCurrentCount = 1) :
    (estimateStep cfg tf st stamp guess none).1 =
      { st with
          currentPose :=
            (tf cfg.odomFrameId cfg.frameId stamp).getD st.currentPose,
          previousStamp := 0, resetCurrentCount := 0 } ∧
    reanchorCount (estimateStep cfg tf st stamp guess none).2 = 1 := by
  cases htf : tf cfg.odomFrameId cfg.frameId stamp <;>
    constructor <;>
    simp [estimateStep, h, htf]

lemma bootstrapStep_fields (cfg : Config) (tf : TfOracle) (st st1 : SessionState)
    (stamp : Nat) (h : bootstrapStep cfg tf st stamp = some st1) :
    st1.resetCurrentCount = st.resetCurrentCount ∧ st1.paused = st.paused := by
  unfold bootstrapStep at h
  split at h
  · cases htf : tf cfg.groundTruthFrameId cfg.frameId stamp <;> rw [htf] at h
    · exact absurd h (by simp)
    · cases h; exact ⟨rfl, rfl⟩
  · cases h; exact ⟨rfl, rfl⟩

lemma run_fail_countdown (cfg : Config) (tf : TfOracle)
    (hgt : cfg.groundTruthFrameId = "") (hg : cfg.guessFromTf = false) :
    ∀ (pre : List Obs) (st : SessionState) (k : Nat),
      st.paused = false → (∀ o ∈ pre, o.est = none) →
      st.resetCurrentCount = pre.length + (k + 1) →
      (runObs cfg tf st pre).1.currentPose = st.currentPose ∧
      (runObs cfg tf st pre).1.resetCurrentCount = k + 1 ∧
      (runObs cfg tf st pre).1.paused = false ∧
      reanchorCount (runObs cfg tf st pre).2 = 0 := by
  intro pre
  induction pre with
  | nil =>
      intro st k hp _ hc
      simp only [List.length_nil, Nat.zero_add] at hc
      exact ⟨rfl, hc, hp, rfl⟩
  | cons obs rest ih =>
      intro st k hp hall hc
      have hobs : obs.est = none := hall obs (List.mem_cons_self obs rest)
      have hc2 : st.resetCurrentCount = (rest.length + k) + 2 := by
        simp only [List.length_cons] at hc; omega
      have hstep : processObservation cfg tf st obs =
          ({ st with previousStamp := obs.stamp,
                     resetCurrentCount := rest.length + k + 1 },
           Event.estimate none ::
             ((if cfg.publishNullWhenLost then [Event.lostSentinelPublished]
               else []) ++
              ([Event.resetWarnLogged (rest.length + k + 2)] ++
               (if cfg.odomInfoSub then [Event.odomInfoPublished]
                else [])))) := by
        rw [processObservation_run cfg tf st obs none hp (Or.inr hgt)
              (guessStep_off cfg tf st obs.stamp hg), hobs,
            estimateStep_fail_decr cfg tf st obs.stamp none
              (rest.length + k) hc2]
      have ihr := ih { st with previousStamp := obs.stamp,
                               resetCurrentCount := rest.length + k + 1 } k
        hp (fun o ho => hall o (List.mem_cons_of_mem obs ho))
        (by show rest.length + k + 1 = rest.length + (k + 1); omega)
      rw [runObs_cons, hstep]
      refine ⟨ihr.1, ihr.2.1, ihr.2.2.1, ?_⟩
      simp [ihr.2.2.2]

lemma run_fail_disabled (cfg : Config) (tf : TfOracle)
    (hgt : cfg.groundTruthFrameId = "") (hg : cfg.guessFromTf = false) :
    ∀ (post : List Obs) (st : SessionState),
      st.paused = false → (∀ o ∈ post, o.est = none) →
      st.resetCurrentCount = 0 →
      (runObs cfg tf st post).1.currentPose = st.currentPose ∧
      (runObs cfg tf st post).1.resetCurrentCount = 0 ∧
      reanchorCount (runObs cfg tf st post).2 = 0 := by
  intro post
  induction post with
  | nil => intro st _ _ hc; exact ⟨rfl, hc, rfl⟩
  | cons obs rest ih =>
      intro st hp hall hc
      have hobs : obs.est = none := hall obs (List.mem_cons_self obs rest)
      have hstep : processObservation cfg tf st obs =
          ({ st with previousStamp := obs.stamp },
           Event.estimate none ::
             ((if cfg.publishNullWhenLost then [Event.lostSentinelPublished]
               else []) ++
              (if cfg.odomInfoSub then [Event.odomInfoPublished]
               else []))) := by
        rw [processObservation_run cfg tf st obs none hp (Or.inr hgt)
              (guessStep_off cfg tf st obs.stamp hg), hobs,
            estimateStep_fail_zero cfg tf st obs.stamp none hc]
      have ihr := ih { st with previousStamp := obs.stamp } hp
        (fun o ho => hall o (List.mem_cons_of_mem obs ho)) hc
      rw [runObs_cons, hstep]
      refine ⟨ihr.1, ihr.2.1, ?_⟩
      simp [ihr.2.2]

lemma step_countdown_disabled (cfg : Config) (tf : TfOracle)
    (st : SessionState) (obs : Obs) (hlimit : cfg.resetCountdown = 0)
    (hcount : st.resetCurrentCount = 0) :
    (processObservation cfg tf st obs).1.resetCurrentCount = 0 ∧
    reanchorCount (processObservation cfg tf st obs).2 = 0 := by
  unfold processObservation
  by_cases hp : st.paused
  · simp [hp, hcount]
  · rw [if_neg (by simp [hp])]
    cases hb : bootstrapStep cfg tf st obs.stamp with
    | none =>
        have hpd : processData cfg tf st obs = (st, []) := by
          unfold processData; rw [hb]
        rw [hpd]; exact ⟨hcount, rfl⟩
    | some st1 =>
        have hb1 : st1.resetCurrentCount = 0 :=
          (bootstrapStep_fields cfg tf st st1 obs.stamp hb).1.trans hcount
        have hpd : processData cfg tf st obs = processCore cfg tf st1 obs := by
          unfold processData; rw [hb]
        rw [hpd]
        cases hg : guessStep cfg tf st1 obs.stamp with
        | none =>
            have hpc : processCore cfg tf st1 obs =
                (st1, [Event.guessErrorLogged]) := by
              unfold processCore; rw [hg]
            rw [hpc]; exact ⟨hb1, rfl⟩
        | some guess =>
            have hpc : processCore cfg tf st1 obs =
                estimateStep cfg tf st1 obs.stamp guess obs.est := by
              unfold processCore; rw [hg]
            rw [hpc]
            cases obs.est with
            | none =>
                rw [estimateStep_fail_zero cfg tf st1 obs.stamp guess hb1]
                exact ⟨hb1, by simp⟩
            | some p =>
                rw [estimateStep_success cfg tf st1 obs.stamp guess p]
                exact ⟨hlimit, by simp⟩

lemma run_countdown_disabled (cfg : Config) (tf : TfOracle)
    (hlimit : cfg.resetCountdown = 0) :
    ∀ (l : List Obs) (st : SessionState), st.resetCurrentCount = 0 →
      (runObs cfg tf st l).1.resetCurrentCount = 0 ∧
      reanchorCount (runObs cfg tf st l).2 = 0 := by
  intro l
  induction l with
  | nil => intro st hc; exact ⟨hc, rfl⟩
  | cons obs rest ih =>
      intro st hc
      have hstep := step_countdown_disabled cfg tf st obs hlimit hc
      have ihr := ih (processObservation cfg tf st obs).1 hstep.1
      rw [runObs_cons]
      exact ⟨ihr.1, by simp [hstep.2, ihr.2]⟩

lemma getParamValue_applyFile (file : String → Option Int)
    (ps : List (String × Int)) (k : String) :
    getParamValue (applyFile file ps) k =
      (getParamValue ps k).map (fun v => (file k).getD v) := by
  induction ps with
  | nil => rfl
  | cons e rest ih =>
      have hcons : applyFile file (e :: rest) =
          (e.1, (file e.1).getD e.2) :: applyFile file rest := rfl
      rw [hcons]
      by_cases h : e.1 = k
      · simp [getParamValue, h]
      · simp [getParamValue, h, ih]

lemma getParamValue_applyPerKey (perKey : String → Option Int)
    (ps : List (String × Int)) (k : String) :
    getParamValue (applyPerKey perKey ps) k =
      (getParamValue ps k).map
        (fun v => clampMinInliers k ((perKey k).getD v)) := by
  induction ps with
  | nil => rfl
  | cons e rest ih =>
      have hcons : applyPerKey perKey (e :: rest) =
          (e.1, clampMinInliers e.1 ((perKey e.1).getD e.2)) ::
            applyPerKey perKey rest := rfl
      rw [hcons]
      by_cases h : e.1 = k
      · simp [getParamValue, h]
      · simp [getParamValue, h, ih]

lemma getParamValue_setArg (ps : List (String × Int)) (kv : String × Int)
    (k : String) :
    getParamValue (setArg ps kv) k =
      (getParamValue ps k).map (fun v => if k = kv.1 then kv.2 else v) := by
  induction ps with
  | nil => rfl
  | cons e rest ih =>
      have hcons : setArg (e :: rest) kv =
          (e.1, if e.1 = kv.1 then kv.2 else e.2) :: setArg rest kv := rfl
      rw [hcons]
      by_cases h : e.1 = k
      · simp [getParamValue, h]
      · simp [getParamValue, h, ih]

lemma getParamValue_applyArgs (args : List (String × Int)) :
    ∀ (ps : List (String × Int)) (k : String),
      getParamValue (applyArgs args ps) k =
        (getParamValue ps k).map
          (fun v => (lastArgValue args k).getD v) := by
  induction args with
  | nil =>
      intro ps k
      cases h : getParamValue ps k <;> simp [applyArgs, lastArgValue, h]
  | cons a rest ih =>
      intro ps k
      have h1 : applyArgs (a :: rest) ps = applyArgs rest (setArg ps a) := rfl
      rw [h1, ih (setArg ps a) k, getParamValue_setArg ps a k]
      cases getParamValue ps k with
      | none => rfl
      | some v =>
          simp only [Option.map_some']
          cases hl : lastArgValue rest k with
          | some w => simp [lastArgValue, hl]
          | none =>
              by_cases hak : a.1 = k
              · simp [lastArgValue, hl, hak]
              · have hka : ¬k = a.1 := fun h => hak h.symm
                simp [lastArgValue, hl, hak, hka]

lemma getParamValue_loadParameters (defaults : List (String × Int))
    (file perKey : String → Option Int) (args : List (String × Int))
    (k : String) (d : Int) (hd : getParamValue defaults k = some d) :
    getParamValue (loadParameters defaults file perKey args) k =
      some ((lastArgValue args k).getD
        (clampMinInliers k ((perKey k).getD ((file k).getD d)))) := by
  unfold loadParameters
  rw [getParamValue_applyArgs, getParamValue_applyPerKey,
      getParamValue_applyFile, hd]
  rfl

/-! The claims. -/

/-- C10 counterexample: the conflict check of lines 122-128 runs before
the `tf_prefix` block of lines 136-150, which prefixes `frameId_` but not
`guessFrameId_`.  With `tf_prefix = "p"`, `frame_id = "base_link"`,
`guess_frame_id = "p/base_link"` and both flags requested, the check sees
differing frames and keeps `guess_from_tf` enabled, yet after the prefix
step all three conditions `publishTf`, `guessFromTf` and
`guessFrameId = frameId` hold simultaneously — refuting the claimed
invariant for subsequent `processObservation` calls. -/
theorem c10_prefix_counterexample :
    (initFrames "p" cfgPrefixTrap).publishTf = true ∧
    (initFrames "p" cfgPrefixTrap).guessFromTf = true ∧
    (initFrames "p" cfgPrefixTrap).guessFrameId =
      (initFrames "p" cfgPrefixTrap).frameId := by
  decide

/-- C10 (amended): after initialization, if pose-stream publication
(`publish_tf`) and guess-from-external-tracking (`guess_from_tf`) are both
requested while the guess-source frame equals the sensor frame as read at
the time of the check, `guess_from_tf` is silently disabled (with a
warning); and when no `tf_prefix` is configured — so the sensor-frame name
is not rewritten after the check — the three conditions `publishTf`,
`guessFromTf` and `guessFrameId = frameId` never hold simultaneously in
any subsequent `processObservation` call (the configuration record is an
immutable parameter of `processObservation`).  With a non-empty
`tf_prefix`, the later prefixing of `frameId` but not `guessFrameId` can
re-create the conflict. -/
theorem c10_no_prefix_conflict_disabled (cfg : Config) (tfPrefix : String)
    (h : tfPrefix = "") :
    (cfg.publishTf = true ∧ cfg.guessFromTf = true ∧
        cfg.guessFrameId = cfg.frameId →
      (fixGuessFromTf cfg).guessFromTf = false) ∧
    ¬((initFrames tfPrefix cfg).publishTf = true ∧
      (initFrames tfPrefix cfg).guessFromTf = true ∧
      (initFrames tfPrefix cfg).guessFrameId =
        (initFrames tfPrefix cfg).frameId) := by
  have hid : initFrames "" cfg = fixGuessFromTf cfg := by
    unfold initFrames applyTfPrefix
    rw [if_pos rfl]
  constructor
  · intro hconj
    unfold fixGuessFromTf
    rw [if_pos hconj]
  · rw [h, hid]
    unfold fixGuessFromTf
    split
    · intro hcon
      exact absurd hcon.2.1 (by simp)
    · next hcond => exact hcond

/-- Witness for C10 (amended): a conflicting raw configuration with no
`tf_prefix` has `guess_from_tf` disabled and the conflict absent after
initialization. -/
theorem c10_no_prefix_conflict_disabled_witness :
    (cfgConflict.publishTf = true ∧ cfgConflict.guessFromTf = true ∧
        cfgConflict.guessFrameId = cfgConflict.frameId →
      (fixGuessFromTf cfgConflict).guessFromTf = false) ∧
    ¬((initFrames "" cfgConflict).publishTf = true ∧
      (initFrames "" cfgConflict).guessFromTf = true ∧
      (initFrames "" cfgConflict).guessFrameId =
        (initFrames "" cfgConflict).frameId) :=
  c10_no_prefix_conflict_disabled cfgConflict "" rfl

/-- C8: for every estimator parameter key present in the defaults table,
the effective value after configuration loading follows the precedence
order: a config-file value overrides the built-in default, an explicit
per-key override overrides the file-provided value (the min-inliers floor
check of lines 220-224 applying to the winning value of those passes), and
a command-line-style override overrides the per-key override. -/
theorem c8_parameter_precedence (defaults : List (String × Int))
    (file perKey : String → Option Int) (args : List (String × Int))
    (k : String) (d : Int) (hd : getParamValue defaults k = some d) :
    (∀ v, lastArgValue args k = some v →
        getParamValue (loadParameters defaults file perKey args) k =
          some v) ∧
    (lastArgValue args k = none →
      (∀ v, perKey k = some v →
          getParamValue (loadParameters defaults file perKey args) k =
            some (clampMinInliers k v)) ∧
      (perKey k = none →
        (∀ v, file k = some v →
            getParamValue (loadParameters defaults file perKey args) k =
              some (clampMinInliers k v)) ∧
        (file k = none →
            getParamValue (loadParameters defaults file perKey args) k =
              some (clampMinInliers k d)))) := by
  have hmaster := getParamValue_loadParameters defaults file perKey args k d hd
  refine ⟨fun v hv => by simp [hmaster, hv],
    fun ha => ⟨fun v hv => by simp [hmaster, ha, hv],
      fun hpk => ⟨fun v hv => by simp [hmaster, ha, hpk, hv],
        fun hf => by simp [hmaster, ha, hpk, hf]⟩⟩⟩

/-- Witness for C8 at a concrete configuration: the defaults table
`defaultsW`, a file providing `Odom/Strategy`, no per-key overrides and no
argument overrides. -/
theorem c8_parameter_precedence_witness :
    getParamValue defaultsW "Odom/Strategy" = some 1 ∧
    ((∀ v, lastArgValue [] "Odom/Strategy" = some v →
        getParamValue (loadParameters defaultsW fileW perKeyW [])
          "Odom/Strategy" = some v) ∧
    (lastArgValue [] "Odom/Strategy" = none →
      (∀ v, perKeyW "Odom/Strategy" = some v →
          getParamValue (loadParameters defaultsW fileW perKeyW [])
            "Odom/Strategy" = some (clampMinInliers "Odom/Strategy" v)) ∧
      (perKeyW "Odom/Strategy" = none →
        (∀ v, fileW "Odom/Strategy" = some v →
            getParamValue (loadParameters defaultsW fileW perKeyW [])
              "Odom/Strategy" =
                some (clampMinInliers "Odom/Strategy" v)) ∧
        (fileW "Odom/Strategy" = none →
            getParamValue (loadParameters defaultsW fileW perKeyW [])
              "Odom/Strategy" =
                some (clampMinInliers "Odom/Strategy" 1))))) :=
  ⟨by decide,
   c8_parameter_precedence defaultsW fileW perKeyW [] "Odom/Strategy" 1
     (by decide)⟩

/-- C9 counterexample: the claim says every configuration supplying a
min-inliers value below 8 ends up clamped to 8, but a command-line-style
override is applied after the floor check (lines 227-243 run after lines
193-225), so supplying 5 through the argument pass leaves the effective
value at 5. -/
theorem c9_min_inliers_arg_counterexample :
    getParamValue
        (loadParameters [(kVisMinInliers, 20)] (fun _ => none)
          (fun _ => none) [(kVisMinInliers, 5)]) kVisMinInliers =
      some 5 ∧
    (5 : Int) < 8 := by
  exact ⟨by decide, by decide⟩

/-- C9 (amended): when the minimum-inliers value is supplied below the
hard floor of 8 through the configuration file or a per-key override (that
is, by any source other than a command-line-style override, which is
applied after validation and bypasses the floor check), the effective
value after loading is clamped to 8 with a warning, and the configuration
is never rejected (the key stays present in the loaded table). -/
theorem c9_min_inliers_clamped (defaults : List (String × Int))
    (file perKey : String → Option Int) (args : List (String × Int))
    (d : Int) (hd : getParamValue defaults kVisMinInliers = some d)
    (hargs : lastArgValue args kVisMinInliers = none)
    (hlow : (perKey kVisMinInliers).getD ((file kVisMinInliers).getD d) < 8) :
    getParamValue (loadParameters defaults file perKey args) kVisMinInliers =
      some 8 := by
  rw [getParamValue_loadParameters defaults file perKey args kVisMinInliers d
        hd, hargs]
  simp [clampMinInliers, hlow]

/-- Witness for C9 (amended): a below-floor default/file value of 5 for
min-inliers, no argument override, loads as 8. -/
theorem c9_min_inliers_clamped_witness :
    getParamValue (loadParameters [(kVisMinInliers, 5)] (fun _ => none)
        (fun _ => none) []) kVisMinInliers = some 8 :=
  c9_min_inliers_clamped [(kVisMinInliers, 5)] (fun _ => none)
    (fun _ => none) [] 5 (by decide) (by decide) (by decide)

lemma estimate_mem_estimateStep (cfg : Config) (tf : TfOracle)
    (st : SessionState) (stamp : Nat) (guess : Option Pose)
    (est : Option Pose) :
    Event.estimate guess ∈ (estimateStep cfg tf st stamp guess est).2 := by
  cases est with
  | some p => simp [estimateStep]
  | none =>
      rcases hc : st.resetCurrentCount with _ | (_ | n)
      · simp [estimateStep, hc]
      · cases htf : tf cfg.odomFrameId cfg.frameId stamp <;>
          simp [estimateStep, hc, htf]
      · simp [estimateStep, hc]

lemma lost_mem_estimateStep (cfg : Config) (tf : TfOracle)
    (st : SessionState) (stamp : Nat) (guess : Option Pose)
    (h : cfg.publishNullWhenLost = true) :
    Event.lostSentinelPublished ∈
      (estimateStep cfg tf st stamp guess none).2 := by
  rcases hc : st.resetCurrentCount with _ | (_ | n)
  · simp [estimateStep, hc, h]
  · cases htf : tf cfg.odomFrameId cfg.frameId stamp <;>
      simp [estimateStep, hc, htf, h]
  · simp [estimateStep, hc, h]

lemma processObservation_guessAbort (cfg : Config) (tf : TfOracle)
    (st : SessionState) (obs : Obs) (hp : st.paused = false)
    (hb : st.currentPose ≠ Pose.identity ∨ cfg.groundTruthFrameId = "")
    (hgs : guessStep cfg tf st obs.stamp = none) :
    processObservation cfg tf st obs = (st, [Event.guessErrorLogged]) := by
  simp only [processObservation, processData, processCore, hp,
    bootstrapStep_skip cfg tf st obs.stamp hb, hgs, Bool.false_eq_true,
    if_false]

/-- C2: on a call where guess-from-external-tracking is enabled (and the
bootstrap block does not fire), if the Transform Provider resolves the
guess-frame pose relative to the odometry output frame at both the
previous and the current timestamp as `a` and `b`, the Motion Estimator is
invoked with the guess `a.inverse * b`; if either lookup fails to resolve,
the call aborts before invoking the Motion Estimator (state unchanged, no
estimator event) and an error-level diagnostic is surfaced. -/
theorem c2_guess_resolution (cfg : Config) (tf : TfOracle)
    (st : SessionState) (obs : Obs) (hp : st.paused = false)
    (hbs : st.currentPose ≠ Pose.identity ∨ cfg.groundTruthFrameId = "")
    (hg : cfg.guessFromTf = true) :
    (∀ a b,
        tf cfg.odomFrameId cfg.guessFrameId st.previousStamp = some a →
        tf cfg.odomFrameId cfg.guessFrameId obs.stamp = some b →
        Event.estimate (some (a.inverse.comp b)) ∈
          (processObservation cfg tf st obs).2) ∧
    ((tf cfg.odomFrameId cfg.guessFrameId st.previousStamp = none ∨
      tf cfg.odomFrameId cfg.guessFrameId obs.stamp = none) →
      processObservation cfg tf st obs =
        (st, [Event.guessErrorLogged])) := by
  constructor
  · intro a b ha hb
    have hgs : guessStep cfg tf st obs.stamp =
        some (some (a.inverse.comp b)) := by
      simp [guessStep, hg, ha, hb]
    rw [processObservation_run cfg tf st obs (some (a.inverse.comp b)) hp
          hbs hgs]
    exact estimate_mem_estimateStep cfg tf st obs.stamp _ obs.est
  · intro hl
    have hgs : guessStep cfg tf st obs.stamp = none := by
      rcases hl with h | h
      · cases h2 : tf cfg.odomFrameId cfg.guessFrameId obs.stamp <;>
          simp [guessStep, hg, h, h2]
      · cases h1 : tf cfg.odomFrameId cfg.guessFrameId st.previousStamp <;>
          simp [guessStep, hg, h, h1]
    exact processObservation_guessAbort cfg tf st obs hp hbs hgs

/-- Witness for C2: with the guess-enabled configuration and the two-stamp
TF oracle, both branches of the claim are exercised at a concrete state
and observation. -/
theorem c2_guess_resolution_witness :
    (∀ a b,
        tfTwo cfgGuess.odomFrameId cfgGuess.guessFrameId
            stOne.previousStamp = some a →
        tfTwo cfgGuess.odomFrameId cfgGuess.guessFrameId obsFail.stamp =
            some b →
        Event.estimate (some (a.inverse.comp b)) ∈
          (processObservation cfgGuess tfTwo stOne obsFail).2) ∧
    ((tfTwo cfgGuess.odomFrameId cfgGuess.guessFrameId
          stOne.previousStamp = none ∨
      tfTwo cfgGuess.odomFrameId cfgGuess.guessFrameId obsFail.stamp =
          none) →
      processObservation cfgGuess tfTwo stOne obsFail =
        (stOne, [Event.guessErrorLogged])) :=
  c2_guess_resolution cfgGuess tfTwo stOne obsFail rfl
    (Or.inl (by decide)) rfl

/-- C3: on every call that reaches the Motion Estimator and where it
returns a non-null pose, the countdown `resetRemaining` is reset to
`resetCountdownLimit` (whatever its value was beforehand, including 1 or
0) and `currentPose` is updated to the returned pose. -/
theorem c3_success_updates (cfg : Config) (tf : TfOracle)
    (st : SessionState) (obs : Obs) (g : Option Pose) (p : Pose)
    (hp : st.paused = false)
    (hbs : st.currentPose ≠ Pose.identity ∨ cfg.groundTruthFrameId = "")
    (hg : guessStep cfg tf st obs.stamp = some g)
    (hest : obs.est = some p) :
    (processObservation cfg tf st obs).1.currentPose = p ∧
    (processObservation cfg tf st obs).1.resetCurrentCount =
      cfg.resetCountdown := by
  rw [processObservation_run cfg tf st obs g hp hbs hg, hest,
      estimateStep_success cfg tf st obs.stamp g p]
  exact ⟨rfl, rfl⟩

/-- Witness for C3: a successful observation from a countdown-1 state
updates the pose to the estimator's result and reloads the countdown. -/
theorem c3_success_updates_witness :
    (processObservation cfgPlain tfNone stOne obsOk).1.currentPose =
      ⟨8, 8, 8⟩ ∧
    (processObservation cfgPlain tfNone stOne obsOk).1.resetCurrentCount =
      cfgPlain.resetCountdown :=
  c3_success_updates cfgPlain tfNone stOne obsOk none ⟨8, 8, 8⟩ rfl
    (Or.inl (by decide)) (by decide) rfl

/-- C4: on every call that reaches the Motion Estimator and where it
returns a null pose, `currentPose` is not updated except through the
re-anchoring of the Failure Recovery Policy (if no re-anchor event occurs,
the pose is exactly the pre-call pose), and when publish-null-when-lost is
enabled an explicit lost-indicator sentinel output is emitted, so
consumers can distinguish a lost cycle from a cycle with no output. -/
theorem c4_failure_lost_handling (cfg : Config) (tf : TfOracle)
    (st : SessionState) (obs : Obs) (g : Option Pose)
    (hp : st.paused = false)
    (hbs : st.currentPose ≠ Pose.identity ∨ cfg.groundTruthFrameId = "")
    (hg : guessStep cfg tf st obs.stamp = some g)
    (hest : obs.est = none) :
    (reanchorCount (processObservation cfg tf st obs).2 = 0 →
        (processObservation cfg tf st obs).1.currentPose =
          st.currentPose) ∧
    (cfg.publishNullWhenLost = true →
        Event.lostSentinelPublished ∈
          (processObservation cfg tf st obs).2) := by
  rw [processObservation_run cfg tf st obs g hp hbs hg, hest]
  constructor
  · rcases hc : st.resetCurrentCount with _ | (_ | n)
    · rw [estimateStep_fail_zero cfg tf st obs.stamp g hc]
      intro _; rfl
    · intro h0
      have h1 := (estimateStep_fail_trip cfg tf st obs.stamp g hc).2
      omega
    · rw [estimateStep_fail_decr cfg tf st obs.stamp g n hc]
      intro _; rfl
  · intro hlost
    exact lost_mem_estimateStep cfg tf st obs.stamp g hlost

/-- Witness for C4: a failing observation from a zero-countdown state
keeps the pose and emits the lost sentinel. -/
theorem c4_failure_lost_handling_witness :
    (reanchorCount (processObservation cfgPlain tfNone stZero obsFail).2 =
        0 →
      (processObservation cfgPlain tfNone stZero obsFail).1.currentPose =
        stZero.currentPose) ∧
    (cfgPlain.publishNullWhenLost = true →
        Event.lostSentinelPublished ∈
          (processObservation cfgPlain tfNone stZero obsFail).2) :=
  c4_failure_lost_handling cfgPlain tfNone stZero obsFail none rfl
    (Or.inl (by decide)) (by decide) rfl

/-- C7: on every call arriving while `currentPose` is still the identity
and a ground-truth reference frame is configured, an unresolved
reference-to-sensor transform at the observation timestamp aborts the call
entirely (no estimator invocation, no output, no state mutation), and a
resolved transform resets `currentPose` to it before the rest of the call
(guess resolution and estimation) continues. -/
theorem c7_bootstrap_gate (cfg : Config) (tf : TfOracle)
    (st : SessionState) (obs : Obs) (hp : st.paused = false)
    (hid : st.currentPose = Pose.identity)
    (hgt : cfg.groundTruthFrameId ≠ "") :
    (tf cfg.groundTruthFrameId cfg.frameId obs.stamp = none →
        processObservation cfg tf st obs = (st, [])) ∧
    (∀ p, tf cfg.groundTruthFrameId cfg.frameId obs.stamp = some p →
        bootstrapStep cfg tf st obs.stamp =
          some { st with currentPose := p, previousStamp := 0 } ∧
        processObservation cfg tf st obs =
          processCore cfg tf
            { st with currentPose := p, previousStamp := 0 } obs) := by
  constructor
  · intro htf
    unfold processObservation processData bootstrapStep
    rw [if_neg (by simp [hp]), if_pos ⟨hid, hgt⟩, htf]
  · intro p htf
    have hbs : bootstrapStep cfg tf st obs.stamp =
        some { st with currentPose := p, previousStamp := 0 } := by
      unfold bootstrapStep
      rw [if_pos ⟨hid, hgt⟩, htf]
    refine ⟨hbs, ?_⟩
    unfold processObservation processData
    rw [if_neg (by simp [hp]), hbs]

/-- Witness for C7: from the freshly constructed state with a ground-truth
frame configured and a resolving TF oracle, the bootstrap resets the pose
and the call continues with the reset state. -/
theorem c7_bootstrap_gate_witness :
    (tfConst cfgGt.groundTruthFrameId cfgGt.frameId obsFail.stamp = none →
        processObservation cfgGt tfConst initialState obsFail =
          (initialState, [])) ∧
    (∀ p,
        tfConst cfgGt.groundTruthFrameId cfgGt.frameId obsFail.stamp =
          some p →
        bootstrapStep cfgGt tfConst initialState obsFail.stamp =
          some { initialState with currentPose := p, previousStamp := 0 } ∧
        processObservation cfgGt tfConst initialState obsFail =
          processCore cfgGt tfConst
            { initialState with currentPose := p, previousStamp := 0 }
            obsFail) :=
  c7_bootstrap_gate cfgGt tfConst initialState obsFail rfl rfl (by decide)

/-- C5: while `paused` is true, every `processObservation` call is a
no-op: the Motion Estimator is not called (the trace is empty) and the
whole `SessionState` (pose, previous stamp, countdown) is unchanged, for
any number of calls; after `resume`, a subsequent successful observation
updates the state normally (pose set to the estimator result, countdown
reloaded, stamp recorded). -/
theorem c5_pause_noop_resume (cfg : Config) (tf : TfOracle)
    (st : SessionState) (l : List Obs) (obs : Obs) (p : Pose)
    (hpause : st.paused = true)
    (hgt : cfg.groundTruthFrameId = "")
    (hguess : cfg.guessFromTf = false)
    (hest : obs.est = some p) :
    runObs cfg tf st l = (st, []) ∧
    (processObservation cfg tf (resume (runObs cfg tf st l).1) obs).1 =
      { currentPose := p, previousStamp := obs.stamp,
        resetCurrentCount := cfg.resetCountdown, paused := false } := by
  have h1 := run_paused cfg tf l st hpause
  refine ⟨h1, ?_⟩
  rw [h1]
  show (processObservation cfg tf (resume st) obs).1 = _
  rw [processObservation_run cfg tf (resume st) obs none rfl (Or.inr hgt)
        (guessStep_off cfg tf (resume st) obs.stamp hguess), hest,
      estimateStep_success cfg tf (resume st) obs.stamp none p]
  rfl

/-- Witness for C5: a paused state absorbs a failing observation without
change, and after resume a successful observation updates normally. -/
theorem c5_pause_noop_resume_witness :
    runObs cfgPlain tfNone stPaused [obsFail] = (stPaused, []) ∧
    (processObservation cfgPlain tfNone
        (resume (runObs cfgPlain tfNone stPaused [obsFail]).1) obsOk).1 =
      { currentPose := ⟨8, 8, 8⟩, previousStamp := obsOk.stamp,
        resetCurrentCount := cfgPlain.resetCountdown, paused := false } :=
  c5_pause_noop_resume cfgPlain tfNone stPaused [obsFail] obsOk ⟨8, 8, 8⟩
    rfl rfl rfl rfl

/-- C6: when `resetCountdownLimit` is 0 (the countdown starts at 0 as in
the constructor), no run of observations — failures included, in any
number — ever triggers a recovery re-anchor: the trace contains no
re-anchoring event and the countdown stays at 0. -/
theorem c6_disabled_countdown (cfg : Config) (tf : TfOracle)
    (st : SessionState) (l : List Obs)
    (hlimit : cfg.resetCountdown = 0)
    (hcount : st.resetCurrentCount = 0) :
    reanchorCount (runObs cfg tf st l).2 = 0 ∧
    (runObs cfg tf st l).1.resetCurrentCount = 0 :=
  ⟨(run_countdown_disabled cfg tf hlimit l st hcount).2,
   (run_countdown_disabled cfg tf hlimit l st hcount).1⟩

/-- Witness for C6: two consecutive failures under a zero countdown limit
never re-anchor. -/
theorem c6_disabled_countdown_witness :
    reanchorCount (runObs cfgZero tfNone stZero [obsFail, obsFail]).2 = 0 ∧
    (runObs cfgZero tfNone stZero
        [obsFail, obsFail]).1.resetCurrentCount = 0 :=
  c6_disabled_countdown cfgZero tfNone stZero [obsFail, obsFail] rfl rfl

/-- C1 counterexample: with a countdown limit of 1, a single estimation
failure trips the policy and re-anchors (one re-anchor event in the
trace), but immediately afterwards `resetCurrentCount` is 0, not the
claimed reload to `resetCountdownLimit` = 1 — the code of lines 553-575
never re-assigns the countdown inside the trip branch. -/
theorem c1_trip_no_reload_counterexample :
    reanchorCount (processObservation cfgPlain tfNone stOne obsFail).2 =
      1 ∧
    cfgPlain.resetCountdown = 1 ∧
    (processObservation cfgPlain tfNone stOne
        obsFail).1.resetCurrentCount = 0 :=
  ⟨by decide, by decide, by decide⟩

/-- C1 (amended): for a positive countdown limit (hypotheses fix
`resetCountdownLimit = pre.length + 1` and a fully armed countdown), after
exactly `resetCountdownLimit` consecutive estimation failures with no
intervening success the Failure Recovery Policy trips exactly once: the
first `resetCountdownLimit - 1` failures produce no re-anchor, the final
one re-anchors `currentPose`, preferring the pose resolved from the
external transform source (odom frame to sensor frame at that
observation's timestamp) and otherwise holding the session's own last
known pose; immediately after re-anchoring `resetRemaining` is NOT
reloaded — it stays at 0 (so further failures cannot re-anchor again)
until the next estimation success reloads it. -/
theorem c1_failure_recovery_trip (cfg : Config) (tf : TfOracle)
    (st : SessionState) (pre post : List Obs) (last : Obs)
    (hgt : cfg.groundTruthFrameId = "") (hg : cfg.guessFromTf = false)
    (hp : st.paused = false)
    (hL : cfg.resetCountdown = pre.length + 1)
    (hcount : st.resetCurrentCount = cfg.resetCountdown)
    (hpre : ∀ o ∈ pre, o.est = none) (hlast : last.est = none)
    (hpost : ∀ o ∈ post, o.est = none) :
    reanchorCount (runObs cfg tf st pre).2 = 0 ∧
    reanchorCount (runObs cfg tf st (pre ++ last :: post)).2 = 1 ∧
    (runObs cfg tf st (pre ++ last :: post)).1.currentPose =
      (tf cfg.odomFrameId cfg.frameId last.stamp).getD st.currentPose ∧
    (runObs cfg tf st
        (pre ++ last :: post)).1.resetCurrentCount = 0 := by
  have hA := run_fail_countdown cfg tf hgt hg pre st 0 hp hpre
    (by rw [hcount, hL])
  have hstep : processObservation cfg tf (runObs cfg tf st pre).1 last =
      estimateStep cfg tf (runObs cfg tf st pre).1 last.stamp none none := by
    rw [processObservation_run cfg tf (runObs cfg tf st pre).1 last none
          hA.2.2.1 (Or.inr hgt)
          (guessStep_off cfg tf (runObs cfg tf st pre).1 last.stamp hg),
        hlast]
  have htrip := estimateStep_fail_trip cfg tf (runObs cfg tf st pre).1
    last.stamp none hA.2.1
  have hBpaused :
      (estimateStep cfg tf (runObs cfg tf st pre).1 last.stamp none
          none).1.paused = false := by
    rw [htrip.1]; exact hA.2.2.1
  have hBcount :
      (estimateStep cfg tf (runObs cfg tf st pre).1 last.stamp none
          none).1.resetCurrentCount = 0 := by
    rw [htrip.1]
  have hC := run_fail_disabled cfg tf hgt hg post
    (estimateStep cfg tf (runObs cfg tf st pre).1 last.stamp none none).1
    hBpaused hpost hBcount
  have hrun : runObs cfg tf st (pre ++ last :: post) =
      ((runObs cfg tf
          (estimateStep cfg tf (runObs cfg tf st pre).1 last.stamp none
            none).1 post).1,
       (runObs cfg tf st pre).2 ++
         ((estimateStep cfg tf (runObs cfg tf st pre).1 last.stamp none
             none).2 ++
          (runObs cfg tf
            (estimateStep cfg tf (runObs cfg tf st pre).1 last.stamp none
              none).1 post).2)) := by
    rw [runObs_append cfg tf pre (last :: post) st, runObs_cons, hstep]
  refine ⟨hA.2.2.2, ?_, ?_, ?_⟩
  · rw [hrun]
    simp [hA.2.2.2, htrip.2, hC.2.2]
  · rw [hrun]
    show (runObs cfg tf _ post).1.currentPose = _
    rw [hC.1, htrip.1]
    show (tf cfg.odomFrameId cfg.frameId last.stamp).getD
        (runObs cfg tf st pre).1.currentPose = _
    rw [hA.1]
  · rw [hrun]
    exact hC.2.1

/-- Witness for C1 (amended): countdown limit 1, one failing observation,
TF resolvable — the single failure trips once, re-anchors to the TF pose
and leaves the countdown at 0. -/
theorem c1_failure_recovery_trip_witness :
    reanchorCount (runObs cfgPlain tfConst stOne []).2 = 0 ∧
    reanchorCount (runObs cfgPlain tfConst stOne
        ([] ++ obsFail :: [])).2 = 1 ∧
    (runObs cfgPlain tfConst stOne ([] ++ obsFail :: [])).1.currentPose =
      (tfConst cfgPlain.odomFrameId cfgPlain.frameId obsFail.stamp).getD
        stOne.currentPose ∧
    (runObs cfgPlain tfConst stOne
        ([] ++ obsFail :: [])).1.resetCurrentCount = 0 :=
  c1_failure_recovery_trip cfgPlain tfConst stOne [] [] obsFail rfl rfl
    rfl rfl rfl (by simp) rfl (by simp)
